import Mathlib

/-!
Shallow embedding of the telemetry alignment and comparison core of the
Formula 4 web application (`src/data-processing/services/data_alignment.py`,
`src/data-processing/services/comparison_engine.py`, data model from
`src/data-processing/models/telemetry_models.py`).

Modelling conventions:
* Python floats are modelled as exact rationals (`ℚ`); floating-point
  rounding is not modelled.
* `Optional[X]` fields are `Option`; Python truthiness of numbers
  (`x or default` treats both `None` and `0` as falsy) is modelled by
  `numOr` / `intOr` / `strOr` / `truthyQ`.
* Functions whose Python body can raise an exception that escapes to the
  caller are modelled with `Except`; functions that catch every exception
  and return an error value are total and return that value.
* The GPS Haversine distance (`DataAlignmentEngine._calculate_gps_distance`)
  is a transcendental real-valued function (`2·R·asin(√a)`); the embedding
  passes it as an explicit function parameter `gps` (mirroring the `self`
  method dispatch).  Theorems that need its one relevant property
  (non-negativity: `asin(√a) ≥ 0` for the `a ∈ [0,1]` produced by the
  formula) take `∀ args, 0 ≤ gps args` as a hypothesis.
-/

/-- Python `x or default` for an optional numeric value: both `None` and `0`
are falsy, any other number is returned unchanged. -/
def numOr (o : Option ℚ) (d : ℚ) : ℚ :=
  match o with
  | none => d
  | some v => if v = 0 then d else v

/-- Python `x or default` for an optional integer value. -/
def intOr (o : Option ℤ) (d : ℤ) : ℤ :=
  match o with
  | none => d
  | some v => if v = 0 then d else v

/-- Python `x or default` for an optional string: `None` and `""` are falsy. -/
def strOr (o : Option String) (d : String) : String :=
  match o with
  | none => d
  | some s => if s = "" then d else s

/-- Python truthiness of an optional number: `None` and `0` are falsy. -/
def truthyQ (o : Option ℚ) : Bool :=
  match o with
  | none => false
  | some v => v ≠ 0

/-- Python `int()` truncation (towards zero) on a rational. -/
def pyInt (q : ℚ) : ℤ := if 0 ≤ q then ⌊q⌋ else ⌈q⌉

/-- Arithmetic mean as computed by `np.mean`; the empty case (a NaN warning
in numpy, never reached on the paths modelled here) is given the junk
value `0`. -/
def qMean (l : List ℚ) : ℚ := l.sum / l.length

/-- Maximum of a list as computed by `np.max` / Python `max`; the empty case
raises in Python and is guarded away at every call site modelled here. -/
def qMax : List ℚ → ℚ
  | [] => 0
  | x :: xs => xs.foldl max x

/-- Minimum of a list as computed by `np.min` / Python `min`. -/
def qMin : List ℚ → ℚ
  | [] => 0
  | x :: xs => xs.foldl min x

/-- First index of the maximum, as computed by `np.argmax`. -/
def argmaxAux : ℕ → ℕ → ℚ → List ℚ → ℕ
  | _, best, _, [] => best
  | i, best, bv, x :: xs => if bv < x then argmaxAux (i + 1) i x xs else argmaxAux (i + 1) best bv xs

/-- The `np.argmax` (first index attaining the maximum); empty input raises in
numpy and is guarded away at the call sites modelled here. -/
def argmaxIdx : List ℚ → ℕ
  | [] => 0
  | x :: xs => argmaxAux 1 0 x xs

/-- First index of the minimum, as computed by `np.argmin`. -/
def argminAux : ℕ → ℕ → ℚ → List ℚ → ℕ
  | _, best, _, [] => best
  | i, best, bv, x :: xs => if x < bv then argminAux (i + 1) i x xs else argminAux (i + 1) best bv xs

/-- The `np.argmin` (first index attaining the minimum). -/
def argminIdx : List ℚ → ℕ
  | [] => 0
  | x :: xs => argminAux 1 0 x xs

/-- The `models/telemetry_models.py`: `TelemetryDataPoint` (pydantic model).
The `metadata`-style catch-all fields do not exist here; every optional
channel is `Option`. -/
structure TelemetryDataPoint where
  time : ℚ
  speed : Option ℚ := none
  distance : Option ℚ := none
  throttle_pos : Option ℚ := none
  brake_pos : Option ℚ := none
  gear : Option ℤ := none
  rpm : Option ℚ := none
  water_temp : Option ℚ := none
  oil_temp : Option ℚ := none
  gps_latitude : Option ℚ := none
  gps_longitude : Option ℚ := none
deriving Repr, DecidableEq

/-- The `models/telemetry_models.py`: `LapData`. -/
structure LapData where
  lap_number : ℤ
  start_time : ℚ
  end_time : ℚ
  lap_time : ℚ
  data_points : List TelemetryDataPoint
  is_fastest : Bool := false
deriving Repr, DecidableEq

/-- The `models/telemetry_models.py`: `SessionData`.  The `metadata` dictionary
(`Dict[str, Any]`) is never read by the alignment or comparison engines and
is omitted. -/
structure SessionData where
  driver_name : Option String := none
  session_name : Option String := none
  track_name : Option String := none
  laps : List LapData := []
  fastest_lap : Option LapData := none
deriving Repr, DecidableEq

/-- The `comparison_engine.py`: `DriverAction` enum. -/
inductive DriverAction where
  | full_throttle
  | partial_throttle
  | coasting
  | braking
  | trail_braking
deriving Repr, DecidableEq

/-- Iteration order of the `DriverAction` enum (its definition order). -/
def allDriverActions : List DriverAction :=
  [DriverAction.full_throttle, DriverAction.partial_throttle, DriverAction.coasting,
   DriverAction.braking, DriverAction.trail_braking]

/-- The `comparison_engine.py`: `VehicleDynamics` enum. -/
inductive VehicleDynamics where
  | neutral
  | oversteer
  | understeer
  | correction
deriving Repr, DecidableEq

/-- The `comparison_engine.py`: `DriverActionClassifier.__init__` threshold
configuration (the default values set in the constructor). -/
structure DriverActionClassifier where
  full_throttle_threshold : ℚ := 95
  partial_throttle_threshold : ℚ := 10
  braking_threshold : ℚ := 5
  trail_braking_threshold : ℚ := 15
  coasting_threshold : ℚ := 5
deriving Repr, DecidableEq

/-- The classifier instance used throughout the engine (default thresholds). -/
def defaultClassifier : DriverActionClassifier := {}

/-- The `comparison_engine.py` lines 118-136: `DriverActionClassifier.classify_action`. -/
def DriverActionClassifier.classify_action (c : DriverActionClassifier)
    (throttle brake : ℚ) : DriverAction :=
  if c.full_throttle_threshold ≤ throttle then DriverAction.full_throttle
  else if c.braking_threshold ≤ brake then
    (if c.trail_braking_threshold ≤ throttle then DriverAction.trail_braking
     else DriverAction.braking)
  else if throttle ≤ c.coasting_threshold ∧ brake ≤ c.coasting_threshold then
    DriverAction.coasting
  else DriverAction.partial_throttle

/-- The ordered threshold rules exactly as the specification words them
(section 4.4): throttle ≥ 95 → FULL_THROTTLE; else brake ≥ 5 →
(throttle ≥ 15 ? TRAIL_BRAKING : BRAKING); else throttle ≤ 5 and brake ≤ 5
→ COASTING; else PARTIAL_THROTTLE.  Used to compare the code against the
spec for claim C9. -/
def classifySpec (throttle brake : ℚ) : DriverAction :=
  if 95 ≤ throttle then DriverAction.full_throttle
  else if 5 ≤ brake then
    (if 15 ≤ throttle then DriverAction.trail_braking else DriverAction.braking)
  else if throttle ≤ 5 ∧ brake ≤ 5 then DriverAction.coasting
  else DriverAction.partial_throttle

/-- The `data_alignment.py`: one element of the list built by
`DataAlignmentEngine._calculate_distance_alignment` (the per-point dict with
a computed `distance` plus the defaulted channels). -/
structure AlignedPoint where
  distance : ℚ
  time : ℚ
  speed : ℚ
  throttle : ℚ
  brake : ℚ
  gear : ℤ
  rpm : ℚ
  gps_lat : Option ℚ
  gps_lon : Option ℚ
  water_temp : Option ℚ
  oil_temp : Option ℚ
deriving Repr, DecidableEq

/-- Construction of the per-point dict (`data_alignment.py` lines 122-134 and
155-167): channel defaults via Python `or`. -/
def mkAlignedPoint (d : ℚ) (p : TelemetryDataPoint) : AlignedPoint :=
  { distance := d
    time := p.time
    speed := numOr p.speed 0
    throttle := numOr p.throttle_pos 0
    brake := numOr p.brake_pos 0
    gear := intOr p.gear 1
    rpm := numOr p.rpm 0
    gps_lat := p.gps_latitude
    gps_lon := p.gps_longitude
    water_temp := p.water_temp
    oil_temp := p.oil_temp }

/-- The `data_alignment.py` lines 140-151: the per-step distance increment.
If both points have truthy GPS coordinates the (Haversine) `gps` function is
used; otherwise the speed-integration fallback
`((cur.speed or 0) + (prev.speed or 0)) / 2 * 1000 / 3600 * (cur.time - prev.time)`.
Note that the source applies no clamping to this increment. -/
def pointIncrement (gps : ℚ → ℚ → ℚ → ℚ → ℚ) (prev cur : TelemetryDataPoint) : ℚ :=
  if truthyQ cur.gps_latitude && truthyQ cur.gps_longitude &&
     truthyQ prev.gps_latitude && truthyQ prev.gps_longitude then
    gps (prev.gps_latitude.getD 0) (prev.gps_longitude.getD 0)
        (cur.gps_latitude.getD 0) (cur.gps_longitude.getD 0)
  else
    (numOr cur.speed 0 + numOr prev.speed 0) / 2 * 1000 / 3600 * (cur.time - prev.time)

/-- Accumulation loop of `_calculate_distance_alignment` over the points
after the first: carries the previous point and the cumulative distance. -/
def alignRest (gps : ℚ → ℚ → ℚ → ℚ → ℚ) :
    TelemetryDataPoint → ℚ → List TelemetryDataPoint → List AlignedPoint
  | _, _, [] => []
  | prev, cum, cur :: rest =>
      let cum2 := cum + pointIncrement gps prev cur
      mkAlignedPoint cum2 cur :: alignRest gps cur cum2 rest

/-- The `data_alignment.py` lines 102-173:
`DataAlignmentEngine._calculate_distance_alignment`.  Returns `none` for a
lap with no data points (`if not lap.data_points: return None`); the first
point is tagged with distance `0.0`, later points with the accumulated
increment.  The internal `except` branch (which would also return `None`)
is only reachable through a floating-point domain error inside the Haversine
call and is not modelled. -/
def calculate_distance_alignment (gps : ℚ → ℚ → ℚ → ℚ → ℚ) (lap : LapData) :
    Option (List AlignedPoint) :=
  match lap.data_points with
  | [] => none
  | p0 :: rest => some (mkAlignedPoint 0 p0 :: alignRest gps p0 0 rest)

/-- Distance column of a distance-aligned point list. -/
def distancesOf (l : List AlignedPoint) : List ℚ := l.map (·.distance)

/-- Last distance of a distance-aligned list:
`lap_data[-1]["distance"] if lap_data else 0` (`data_alignment.py` lines 211-212). -/
def lastDistance (l : List AlignedPoint) : ℚ :=
  match l.getLast? with
  | some p => p.distance
  | none => 0

/-- Channels interpolated by `_interpolate_lap_data`
(`data_alignment.py` line 251). -/
inductive Channel where
  | time
  | speed
  | throttle
  | brake
  | gear
  | rpm
  | water_temp
  | oil_temp
deriving Repr, DecidableEq

/-- Dictionary lookup `point.get(channel, 0)` on the per-point dict built by
`_calculate_distance_alignment`: the key always exists; the temperature
values may be `None`. -/
def channelVal (p : AlignedPoint) : Channel → Option ℚ
  | Channel.time => some p.time
  | Channel.speed => some p.speed
  | Channel.throttle => some p.throttle
  | Channel.brake => some p.brake
  | Channel.gear => some (p.gear : ℚ)
  | Channel.rpm => some (p.rpm : ℚ)
  | Channel.water_temp => p.water_temp
  | Channel.oil_temp => p.oil_temp

/-- The (distance, value) pairs fed to `interp1d` for one channel
(`data_alignment.py` lines 246-258).  For `gear` the source replaces the raw
values by `max(1, int(point.get(channel, 1)))` BEFORE interpolating (the
stored gear is already an integer, so `int()` is the identity here).  The
positional pairing of the `distances` and `values` arrays is expressed as a
single map over the point list.  The `getD 0` default on the temperature
channels is never reached on a path where interpolation happens (a `None`
temperature makes `np.isnan` raise first, see `interpolate_lap_data`). -/
def channelPoints (lapData : List AlignedPoint) : Channel → List (ℚ × ℚ)
  | Channel.gear => lapData.map (fun p => (p.distance, ((max 1 p.gear : ℤ) : ℚ)))
  | c => lapData.map (fun p => (p.distance, (channelVal p c).getD 0))

/-- Value of the linear interpolant through `(x1,y1)` and `(x2,y2)` at `t`. -/
def segInterp (x1 y1 x2 y2 t : ℚ) : ℚ := y1 + (y2 - y1) * (t - x1) / (x2 - x1)

/-- Piecewise-linear interpolation with linear extrapolation on both sides,
over an x-sorted list of points: the semantics of
`scipy.interpolate.interp1d(kind='linear', fill_value='extrapolate',
bounds_error=False)` evaluated at `t` (exact rational arithmetic instead of
floats).  Fewer than two points cannot occur at the modelled call site
(guarded by `len > 1`); those cases return junk values. -/
def interpSorted (t : ℚ) : List (ℚ × ℚ) → ℚ
  | [] => 0
  | [(_, y1)] => y1
  | [(x1, y1), (x2, y2)] => segInterp x1 y1 x2 y2 t
  | (x1, y1) :: (x2, y2) :: p3 :: rest =>
      if t ≤ x2 then segInterp x1 y1 x2 y2 t
      else interpSorted t ((x2, y2) :: p3 :: rest)

/-- The `interp1d` sorts its x-values (`assume_sorted=False` by default);
modelled as a stable insertion sort on the first component. -/
def sortPairs (ps : List (ℚ × ℚ)) : List (ℚ × ℚ) :=
  ps.insertionSort (fun p q => p.1 ≤ q.1)

/-- The `np.arange(0, stop, step)` for `step > 0`: the grid
`0, step, 2·step, …` strictly below `stop`, of length `⌈stop/step⌉`
(empty when `stop ≤ 0`).  Exact rational arithmetic; the floating-point
length corner cases of numpy are not modelled. -/
def arange (stop step : ℚ) : List ℚ :=
  (List.range (⌈stop / step⌉).toNat).map (fun i : ℕ => step * (i : ℚ))

/-- The `data_alignment.py` lines 233-282:
`DataAlignmentEngine._interpolate_lap_data`.  Returns `none` exactly when
the Python function returns `{}`: with at least two points and a `None`
temperature value, `np.isnan` over the object-dtype value array raises
`TypeError`, which the function's own `except` turns into `{}`.  Otherwise
every channel gets an array of the target length — interpolated when there
are at least two points, all-zero otherwise (`[0] * len(target_distances)`). -/
def interpolate_lap_data (lapData : List AlignedPoint) (target_distances : List ℚ) :
    Option (Channel → List ℚ) :=
  if 1 < lapData.length &&
     lapData.any (fun p => p.water_temp.isNone || p.oil_temp.isNone) then
    none
  else
    some (fun c =>
      if 1 < lapData.length then
        target_distances.map (fun t => interpSorted t (sortPairs (channelPoints lapData c)))
      else
        target_distances.map (fun _ => 0))

/-- Grid spacing constant (`distance_spacing = 10.0`,
`data_alignment.py` line 216). -/
def distance_spacing : ℚ := 10

/-- Result shape of `_align_by_distance`: the common grid plus the two
per-driver channel maps (`none` models the empty dict `{}` produced when a
driver's interpolation failed). -/
structure AlignedData where
  distance : List ℚ
  driver1 : Option (Channel → List ℚ)
  driver2 : Option (Channel → List ℚ)

/-- The `data_alignment.py` lines 198-231: `DataAlignmentEngine._align_by_distance`.
The common grid is `np.arange(0, min(last1, last2), 10.0)`; both laps are
interpolated onto it.  No code path of the body raises (the interpolation
helper catches its own exceptions), so the surrounding `except` branch is
unreachable and the function is total. -/
def align_by_distance (lap1_data lap2_data : List AlignedPoint) : AlignedData :=
  let min_distance := min (lastDistance lap1_data) (lastDistance lap2_data)
  let common_distances := arange min_distance distance_spacing
  { distance := common_distances
    driver1 := interpolate_lap_data lap1_data common_distances
    driver2 := interpolate_lap_data lap2_data common_distances }

/-- One entry of the `zero_crossings` list
(`data_alignment.py` lines 515-518). -/
structure ZeroCrossing where
  distance : ℚ
  index : ℕ
deriving Repr, DecidableEq

/-- One of the two `max_advantages` entries
(`data_alignment.py` lines 564-575). -/
structure AdvantagePoint where
  time_gap : ℚ
  distance : ℚ
  index : ℕ
deriving Repr, DecidableEq

/-- One entry of the delta analyzer's per-sector list
(`data_alignment.py` lines 545-552). -/
structure SectorDelta where
  sector : ℕ
  start_distance : ℚ
  end_distance : ℚ
  time_gained_driver1 : ℚ
  time_gained_driver2 : ℚ
  advantage : String
deriving Repr, DecidableEq

/-- The `statistics` sub-dict (`data_alignment.py` lines 577-583).
`delta_std` (the square root of `delta_variance`) is irrational in general
and hence not representable in the exact-rational embedding; no claim
references it and it is omitted. -/
structure DeltaStatistics where
  driver1_ahead_percentage : ℚ
  driver2_ahead_percentage : ℚ
  even_percentage : ℚ
  delta_variance : ℚ
deriving Repr, DecidableEq

/-- The full dict returned by `_calculate_lap_delta_detailed` on success
(`data_alignment.py` lines 554-584). -/
structure TimeComparison where
  time_delta_array : List ℚ
  cumulative_delta_array : List ℚ
  distance_array : List ℚ
  time_delta_start : ℚ
  time_delta_end : ℚ
  cumulative_delta_final : ℚ
  max_time_gap : ℚ
  avg_time_delta : ℚ
  zero_crossings : List ZeroCrossing
  max_advantages_driver1 : AdvantagePoint
  max_advantages_driver2 : AdvantagePoint
  sector_analysis : List SectorDelta
  statistics : DeltaStatistics
deriving Repr, DecidableEq

/-- Zero-crossing scan of `_calculate_lap_delta_detailed`
(`data_alignment.py` lines 507-518): for each adjacent pair
`(cum[i-1], cum[i])` with `cum[i-1] > 0 ∧ cum[i] ≤ 0` or
`cum[i-1] < 0 ∧ cum[i] ≥ 0`, report the linearly interpolated crossing
distance and the index `i-1`.  The counter argument carries the index of
the first element of the current pair (the Python loop stores `i-1`). -/
def zero_crossings_from : ℕ → List ℚ → List ℚ → List ZeroCrossing
  | i, a :: tl@(b :: _), d1 :: dl@(d2 :: _) =>
      (if (0 < a ∧ b ≤ 0) ∨ (a < 0 ∧ 0 ≤ b) then
        [{ distance := d1 + (d2 - d1) * |a| / (|a| + |b|), index := i }]
      else []) ++ zero_crossings_from (i + 1) tl dl
  | _, _, _ => []

/-- Sector indices of the delta analyzer (`data_alignment.py` lines 534-538):
`[i for i, d in enumerate(distances) if sector_start <= d <= sector_end]`
(inclusive on BOTH ends, unlike `_calculate_sector_analysis`). -/
def deltaSectorIndices (distances : List ℚ) (lo hi : ℚ) : List ℕ :=
  (List.range distances.length).filter (fun i => lo ≤ distances.getD i 0 ∧ distances.getD i 0 ≤ hi)

/-- Per-sector deltas of `_calculate_lap_delta_detailed`
(`data_alignment.py` lines 524-552): three equal sectors of
`total_distance = distances[-1]`; sectors with no grid point are skipped. -/
def lap_delta_sectors (cumulative_delta distances : List ℚ) : List SectorDelta :=
  let total_distance := distances.getLast?.getD 0
  let sector_length := total_distance / 3
  (List.range 3).filterMap (fun (sec : ℕ) =>
    let sector_start := (sec : ℚ) * sector_length
    let sector_end := ((sec : ℚ) + 1) * sector_length
    let idxs := deltaSectorIndices distances sector_start sector_end
    match idxs with
    | [] => none
    | i0 :: _ =>
        let iN := idxs.getLast?.getD i0
        let gained := cumulative_delta.getD iN 0 - cumulative_delta.getD i0 0
        some { sector := sec + 1
               start_distance := sector_start
               end_distance := sector_end
               time_gained_driver1 := gained
               time_gained_driver2 := -gained
               advantage := if 0 < gained then "driver1" else "driver2" })

/-- The `data_alignment.py` lines 483-593:
`DataAlignmentEngine._calculate_lap_delta_detailed`.  `none` models the
`except` branch's error dict.  On the paths the aligner produces, the three
arrays share one positive length; inputs violating that make numpy raise
(shape mismatch on `time1 - time2`, `time_delta[0]` / `np.argmax` on an
empty array, or an out-of-range `distances[i]`), which the handler converts
to the error dict.  numpy's length-1 broadcasting special case, which the
aligner can never produce, is subsumed into the same error case. -/
def calculate_lap_delta_detailed (driver1 driver2 : Channel → List ℚ)
    (distances : List ℚ) : Option TimeComparison :=
  let time1 := driver1 Channel.time
  let time2 := driver2 Channel.time
  if time1.length = time2.length ∧ time1.length = distances.length ∧ time1 ≠ [] then
    let time_delta := time1.zipWith (· - ·) time2
    let cumulative_delta := time_delta.map (fun x => x - time_delta.headD 0)
    let i1 := argmaxIdx cumulative_delta
    let i2 := argminIdx cumulative_delta
    some { time_delta_array := time_delta
           cumulative_delta_array := cumulative_delta
           distance_array := distances
           time_delta_start := time_delta.headD 0
           time_delta_end := time_delta.getLast?.getD 0
           cumulative_delta_final := cumulative_delta.getLast?.getD 0
           max_time_gap := qMax (cumulative_delta.map (|·|))
           avg_time_delta := qMean time_delta
           zero_crossings := zero_crossings_from 0 cumulative_delta distances
           max_advantages_driver1 :=
             { time_gap := cumulative_delta.getD i1 0
               distance := distances.getD i1 0
               index := i1 }
           max_advantages_driver2 :=
             { time_gap := |cumulative_delta.getD i2 0|
               distance := distances.getD i2 0
               index := i2 }
           sector_analysis := lap_delta_sectors cumulative_delta distances
           statistics :=
             { driver1_ahead_percentage :=
                 ((cumulative_delta.filter (fun x => 0 < x)).length : ℚ) / cumulative_delta.length * 100
               driver2_ahead_percentage :=
                 ((cumulative_delta.filter (fun x => x < 0)).length : ℚ) / cumulative_delta.length * 100
               even_percentage :=
                 ((cumulative_delta.filter (fun x => |x| < 1/10)).length : ℚ) / cumulative_delta.length * 100
               delta_variance :=
                 qMean (cumulative_delta.map (fun x => (x - qMean cumulative_delta) ^ 2)) } }
  else none

/-- The `comparison_engine.py` lines 29-52: the `ComparisonPoint` dataclass.
`gear_delta` is annotated `int` in the source but receives the difference of
two interpolated float arrays; it is therefore modelled as `ℚ`. -/
structure ComparisonPoint where
  distance : ℚ
  time_delta : ℚ
  speed_delta : ℚ
  throttle_delta : ℚ
  brake_delta : ℚ
  gear_delta : ℚ
  rpm_delta : ℚ
  driver1_speed : ℚ
  driver1_throttle : ℚ
  driver1_brake : ℚ
  driver1_action : DriverAction
  driver1_dynamics : VehicleDynamics
  driver2_speed : ℚ
  driver2_throttle : ℚ
  driver2_brake : ℚ
  driver2_action : DriverAction
  driver2_dynamics : VehicleDynamics
deriving Repr, DecidableEq

/-- The `comparison_engine.py` lines 54-78: the `SectorAnalysis` dataclass.
The driver-keyed dictionaries are modelled as association lists in
construction order; the per-driver action distribution is an association
list over the enum's iteration order. -/
structure SectorAnalysis where
  sector_number : ℕ
  start_distance : ℚ
  end_distance : ℚ
  driver1_sector_time : ℚ
  driver2_sector_time : ℚ
  time_difference : ℚ
  dominant_driver : String
  max_speed_delta : ℚ
  avg_speed_delta : ℚ
  speed_advantage_distance : ℚ
  braking_points : List (String × List ℚ)
  throttle_application_points : List (String × List ℚ)
  corner_speeds : List (String × (ℚ × ℚ))
  action_distribution : List (String × List (DriverAction × ℚ))
deriving Repr, DecidableEq

/-- The `comparison_engine.py` lines 297-401: `TrackSectorAnalyzer.analyze_sector`.
Notes kept from the source: the sector filter is inclusive on both ends
(`start_dist <= p.distance <= end_dist`); the locals `first_point` /
`last_point` (lines 329-330) are dead and omitted; a per-point "time" is
`p.distance / (p.driver1_speed / 3.6)` — the point's CUMULATIVE distance
over its speed in m/s — summed over points with positive speed. -/
def analyze_sector (sector_num : ℕ) (start_dist end_dist : ℚ)
    (driver1_points : List ComparisonPoint) (_driver2_points : List ComparisonPoint)
    (driver1_name driver2_name : String) : SectorAnalysis :=
  let sector_points := driver1_points.filter
    (fun p => start_dist ≤ p.distance ∧ p.distance ≤ end_dist)
  match sector_points with
  | [] =>
      { sector_number := sector_num
        start_distance := start_dist
        end_distance := end_dist
        driver1_sector_time := 0
        driver2_sector_time := 0
        time_difference := 0
        dominant_driver := "unknown"
        max_speed_delta := 0
        avg_speed_delta := 0
        speed_advantage_distance := 0
        braking_points := [(driver1_name, []), (driver2_name, [])]
        throttle_application_points := [(driver1_name, []), (driver2_name, [])]
        corner_speeds := [(driver1_name, (0, 0)), (driver2_name, (0, 0))]
        action_distribution := [(driver1_name, []), (driver2_name, [])] }
  | _ :: _ =>
      let driver1_times := (sector_points.filter (fun p => 0 < p.driver1_speed)).map
        (fun p => p.distance / (p.driver1_speed / (18/5)))
      let driver2_times := (sector_points.filter (fun p => 0 < p.driver2_speed)).map
        (fun p => p.distance / (p.driver2_speed / (18/5)))
      let driver1_sector_time := if driver1_times.isEmpty then 0 else driver1_times.sum
      let driver2_sector_time := if driver2_times.isEmpty then 0 else driver2_times.sum
      let time_difference := driver1_sector_time - driver2_sector_time
      let speed_deltas := sector_points.map (·.speed_delta)
      let driver1_advantage_points := (sector_points.filter (fun p => p.speed_delta < 0)).length
      let driver1_speeds := (sector_points.filter (fun p => 0 < p.driver1_speed)).map (·.driver1_speed)
      let driver2_speeds := (sector_points.filter (fun p => 0 < p.driver2_speed)).map (·.driver2_speed)
      { sector_number := sector_num
        start_distance := start_dist
        end_distance := end_dist
        driver1_sector_time := driver1_sector_time
        driver2_sector_time := driver2_sector_time
        time_difference := time_difference
        dominant_driver := if time_difference < 0 then driver1_name else driver2_name
        max_speed_delta := if speed_deltas.isEmpty then 0 else qMax speed_deltas
        avg_speed_delta := if speed_deltas.isEmpty then 0 else qMean speed_deltas
        speed_advantage_distance :=
          ((driver1_advantage_points : ℚ) / sector_points.length) * (end_dist - start_dist)
        braking_points :=
          [(driver1_name, (sector_points.filter
              (fun p => p.driver1_action = DriverAction.braking)).map (·.distance)),
           (driver2_name, (sector_points.filter
              (fun p => p.driver2_action = DriverAction.braking)).map (·.distance))]
        throttle_application_points :=
          [(driver1_name, (sector_points.filter
              (fun p => p.driver1_action = DriverAction.full_throttle)).map (·.distance)),
           (driver2_name, (sector_points.filter
              (fun p => p.driver2_action = DriverAction.full_throttle)).map (·.distance))]
        corner_speeds :=
          [(driver1_name,
             (if driver1_speeds.isEmpty then 0 else qMin driver1_speeds,
              if driver1_speeds.isEmpty then 0 else qMax driver1_speeds)),
           (driver2_name,
             (if driver2_speeds.isEmpty then 0 else qMin driver2_speeds,
              if driver2_speeds.isEmpty then 0 else qMax driver2_speeds))]
        action_distribution :=
          [(driver1_name, allDriverActions.map (fun a =>
              (a, ((sector_points.filter (fun p => p.driver1_action = a)).length : ℚ)
                    / sector_points.length * 100))),
           (driver2_name, allDriverActions.map (fun a =>
              (a, ((sector_points.filter (fun p => p.driver2_action = a)).length : ℚ)
                    / sector_points.length * 100)))] }

/-- Sector time as claim C5 words it: the sum, over in-sector points with
strictly positive driver-1 speed, of the point's distance SPAN to the
adjacent grid point divided by the speed in m/s.  The span of each point is
the distance to the next point (the previous one for the last point); a
single point has span `0`.  Written from the spec's sentence, to be compared
against `analyze_sector`. -/
def spansOf : List ℚ → List ℚ
  | [] => []
  | [_] => [0]
  | [d1, d2] => [d2 - d1, d2 - d1]
  | d1 :: d2 :: d3 :: rest => (d2 - d1) :: spansOf (d2 :: d3 :: rest)

/-- Per-driver-1 sector time following the specification's formula
(claim C5), over a list of in-sector points. -/
def sectorTimeSpecDriver1 (sector_points : List ComparisonPoint) : ℚ :=
  (((spansOf (sector_points.map (·.distance))).zip sector_points).filterMap
    (fun sp => if 0 < sp.2.driver1_speed then some (sp.1 / (sp.2.driver1_speed / (18/5))) else none)).sum

/-- The `data_alignment.py` lines 344-366: `_find_advantage_zones` result dict.
Its `except` branch (returning `{}`) is reached exactly when the diff array
is empty (`np.max` raises / division by `len` fails); modelled with `none`. -/
structure AdvantageZones where
  driver1_advantage_percentage : ℚ
  driver2_advantage_percentage : ℚ
  biggest_driver1_advantage : ℚ
  biggest_driver2_advantage : ℚ
deriving Repr, DecidableEq

/-- The `data_alignment.py` lines 344-366: `DataAlignmentEngine._find_advantage_zones`. -/
def find_advantage_zones (diff_array : List ℚ) (_distances : List ℚ) :
    Option AdvantageZones :=
  match diff_array with
  | [] => none
  | _ :: _ =>
      some { driver1_advantage_percentage :=
               ((diff_array.filter (fun x => 0 < x)).length : ℚ) / diff_array.length * 100
             driver2_advantage_percentage :=
               ((diff_array.filter (fun x => x < 0)).length : ℚ) / diff_array.length * 100
             biggest_driver1_advantage := qMax diff_array
             biggest_driver2_advantage := |qMin diff_array| }

/-- The `data_alignment.py` lines 307-312: the `speed_comparison` sub-dict. -/
structure SpeedComparison where
  max_speed_advantage_driver1 : ℚ
  max_speed_advantage_driver2 : ℚ
  avg_speed_difference : ℚ
  speed_advantage_distance : Option AdvantageZones
deriving Repr, DecidableEq

/-- The `data_alignment.py` lines 323-326: the `throttle_comparison` sub-dict
(`more_aggressive_driver` is the literal `1` or `2`). -/
structure ThrottleComparison where
  avg_throttle_difference : ℚ
  more_aggressive_driver : ℕ
deriving Repr, DecidableEq

/-- The `data_alignment.py` lines 330-333: the `brake_comparison` sub-dict. -/
structure BrakeComparison where
  avg_brake_difference : ℚ
  later_braker : ℕ
deriving Repr, DecidableEq

/-- The `data_alignment.py` lines 460-465: the `speed_analysis` part of
`_calculate_performance_summary`. -/
structure SpeedAnalysisSummary where
  faster_max_speed : String
  faster_avg_speed : String
  max_speed_gap : ℚ
  avg_speed_gap : ℚ
deriving Repr, DecidableEq

/-- The `data_alignment.py` lines 472-475: the `driving_style` part of
`_calculate_performance_summary`. -/
structure DrivingStyle where
  more_aggressive_throttle : String
  throttle_aggression_gap : ℚ
deriving Repr, DecidableEq

/-- The `data_alignment.py` lines 439-481: result of
`_calculate_performance_summary`. -/
structure PerformanceSummary where
  speed_analysis : SpeedAnalysisSummary
  driving_style : DrivingStyle
deriving Repr, DecidableEq

/-- The `data_alignment.py` lines 439-481:
`DataAlignmentEngine._calculate_performance_summary`.  The
`"speed" in driver1` membership tests are always true for the channel maps
produced by `interpolate_lap_data`, so both sub-dicts are always built; the
only exception path (Python `max` on an empty speed list, caught and turned
into `{}`) is modelled by the `none` branch. -/
def calculate_performance_summary (driver1 driver2 : Channel → List ℚ) :
    Option PerformanceSummary :=
  if driver1 Channel.speed = [] ∨ driver2 Channel.speed = [] then none
  else
    some { speed_analysis :=
             { faster_max_speed :=
                 if qMax (driver2 Channel.speed) < qMax (driver1 Channel.speed)
                 then "driver1" else "driver2"
               faster_avg_speed :=
                 if qMean (driver2 Channel.speed) < qMean (driver1 Channel.speed)
                 then "driver1" else "driver2"
               max_speed_gap := |qMax (driver1 Channel.speed) - qMax (driver2 Channel.speed)|
               avg_speed_gap := |qMean (driver1 Channel.speed) - qMean (driver2 Channel.speed)| }
           driving_style :=
             { more_aggressive_throttle :=
                 if qMean ((driver2 Channel.throttle).map (fun x => max 0 x)) <
                    qMean ((driver1 Channel.throttle).map (fun x => max 0 x))
                 then "driver1" else "driver2"
               throttle_aggression_gap :=
                 |qMean ((driver1 Channel.throttle).map (fun x => max 0 x)) -
                  qMean ((driver2 Channel.throttle).map (fun x => max 0 x))| } }

/-- The `data_alignment.py` lines 302-338: the `comparison_metrics` dict. -/
structure ComparisonMetrics where
  speed_comparison : SpeedComparison
  time_comparison : Option TimeComparison
  throttle_comparison : ThrottleComparison
  brake_comparison : BrakeComparison
  performance_summary : Option PerformanceSummary
deriving Repr, DecidableEq

/-- The `data_alignment.py` lines 284-342:
`DataAlignmentEngine._calculate_comparison_metrics`.  Returns `none` for the
`{}` results: the explicit guard (`not driver1 or not driver2 or not
distances`) and the one reachable exception (an empty speed-difference
array makes `np.max` raise, caught by the function's handler).  All channel
membership tests are true for the maps produced by `interpolate_lap_data`. -/
def calculate_comparison_metrics (aligned_data : AlignedData) :
    Option ComparisonMetrics :=
  match aligned_data.driver1, aligned_data.driver2 with
  | some d1, some d2 =>
      if aligned_data.distance = [] then none
      else
        let speed_diff := (d1 Channel.speed).zipWith (· - ·) (d2 Channel.speed)
        if speed_diff = [] then none
        else
          some { speed_comparison :=
                   { max_speed_advantage_driver1 := qMax speed_diff
                     max_speed_advantage_driver2 := qMin speed_diff
                     avg_speed_difference := qMean speed_diff
                     speed_advantage_distance :=
                       find_advantage_zones speed_diff aligned_data.distance }
                 time_comparison := calculate_lap_delta_detailed d1 d2 aligned_data.distance
                 throttle_comparison :=
                   { avg_throttle_difference :=
                       qMean ((d1 Channel.throttle).zipWith (· - ·) (d2 Channel.throttle))
                     more_aggressive_driver :=
                       if qMean (d2 Channel.throttle) < qMean (d1 Channel.throttle)
                       then 1 else 2 }
                 brake_comparison :=
                   { avg_brake_difference :=
                       qMean ((d1 Channel.brake).zipWith (· - ·) (d2 Channel.brake))
                     later_braker :=
                       if qMean (d1 Channel.brake) < qMean (d2 Channel.brake)
                       then 1 else 2 }
                 performance_summary := calculate_performance_summary d1 d2 }
  | _, _ => none

/-- The `data_alignment.py` lines 408-417 and 419-429: the per-sector
`avg_speed` and `sector_time` sub-dicts of `_calculate_sector_analysis`. -/
structure SectorChannelStat where
  driver1 : ℚ
  driver2 : ℚ
  advantage : String
  difference : ℚ
deriving Repr, DecidableEq

/-- One value of the `sector_analysis` dict (`data_alignment.py` line 431).
The sub-dicts are only built when the driver channel maps exist (`"speed" in
driver1` is false for the empty dict `{}`). -/
structure SectorDataEntry where
  avg_speed : Option SectorChannelStat
  sector_time : Option SectorChannelStat
deriving Repr, DecidableEq

/-- The `data_alignment.py` lines 368-437:
`DataAlignmentEngine._calculate_sector_analysis` (sector count `3` at the
call site).  The dict key `"sector_{i+1}"` is modelled by the number `i+1`;
empty sectors are skipped (`continue`); the sector filter here is
half-open (`sector_start <= d < sector_end`). -/
def calculate_sector_analysis (aligned_data : AlignedData) (num_sectors : ℕ) :
    List (ℕ × SectorDataEntry) :=
  match aligned_data.distance with
  | [] => []
  | _ :: _ =>
      let distances := aligned_data.distance
      let total_distance := distances.getLast?.getD 0
      let sector_length := total_distance / num_sectors
      (List.range num_sectors).filterMap (fun (sec : ℕ) =>
        let sector_start := (sec : ℚ) * sector_length
        let sector_end := ((sec : ℚ) + 1) * sector_length
        let idxs := (List.range distances.length).filter
          (fun i => sector_start ≤ distances.getD i 0 ∧ distances.getD i 0 < sector_end)
        match idxs with
        | [] => none
        | i0 :: _ =>
            let iN := idxs.getLast?.getD i0
            some (sec + 1,
              { avg_speed :=
                  match aligned_data.driver1, aligned_data.driver2 with
                  | some d1, some d2 =>
                      let s1 := qMean (idxs.map (fun i => (d1 Channel.speed).getD i 0))
                      let s2 := qMean (idxs.map (fun i => (d2 Channel.speed).getD i 0))
                      some { driver1 := s1
                             driver2 := s2
                             advantage := if s2 < s1 then "driver1" else "driver2"
                             difference := |s1 - s2| }
                  | _, _ => none
                sector_time :=
                  match aligned_data.driver1, aligned_data.driver2 with
                  | some d1, some d2 =>
                      let t1 := (d1 Channel.time).getD iN 0 - (d1 Channel.time).getD i0 0
                      let t2 := (d2 Channel.time).getD iN 0 - (d2 Channel.time).getD i0 0
                      some { driver1 := t1
                             driver2 := t2
                             advantage := if t1 < t2 then "driver1" else "driver2"
                             difference := |t1 - t2| }
                  | _, _ => none }))

/-- The `data_alignment.py` lines 74-85: the per-driver info block of a
successful `align_sessions` result. -/
structure DriverInfo where
  name : String
  lap_number : ℤ
  lap_time : ℚ
  is_fastest : Bool
deriving Repr, DecidableEq

/-- The `data_alignment.py` lines 89-93: the `alignment_info` block. -/
structure AlignmentInfo where
  total_distance : ℚ
  data_points : ℕ
  interpolation_spacing : ℚ
deriving Repr, DecidableEq

/-- The dictionary returned by `DataAlignmentEngine.align_sessions`
(`data_alignment.py` lines 45-100): either a failure value
(`success=False` with an `error` string, and for the lap-selection failure
additionally `lap1_available` / `lap2_available`) or the full success value.
Keys absent from a given return dict are `none`. -/
structure AlignResult where
  success : Bool
  error : Option String := none
  lap1_available : Option Bool := none
  lap2_available : Option Bool := none
  driver1 : Option DriverInfo := none
  driver2 : Option DriverInfo := none
  aligned_data : Option AlignedData := none
  comparison_metrics : Option ComparisonMetrics := none
  sector_analysis : Option (List (ℕ × SectorDataEntry)) := none
  alignment_info : Option AlignmentInfo := none

/-- Lap selection inlined in `align_sessions` (`data_alignment.py`
lines 35-43): an explicit lap number is looked up exactly; otherwise the
session's fastest lap when `use_fastest_laps` (with NO fallback to the
first lap), else the first lap if any. -/
def alignSelectLap (session : SessionData) (use_fastest_laps : Bool)
    (specific_lap : Option ℤ) : Option LapData :=
  match specific_lap with
  | some n => session.laps.find? (fun lap => lap.lap_number == n)
  | none =>
      if use_fastest_laps then session.fastest_lap else session.laps.head?

/-- The `data_alignment.py` lines 17-100: `DataAlignmentEngine.align_sessions`.
Every failure is returned as a value: the two explicit `success: False`
branches, plus a catch-all `except` that would turn any escaping exception
into a `success: False` value (no body expression can raise in the
embedding — `_calculate_distance_alignment` and the helpers catch their
own exceptions — so that branch is unreachable here and the function is
total). -/
def align_sessions (gps : ℚ → ℚ → ℚ → ℚ → ℚ) (session1 session2 : SessionData)
    (use_fastest_laps : Bool) (specific_lap1 specific_lap2 : Option ℤ) : AlignResult :=
  let lap1 := alignSelectLap session1 use_fastest_laps specific_lap1
  let lap2 := alignSelectLap session2 use_fastest_laps specific_lap2
  match lap1, lap2 with
  | some l1, some l2 =>
      match calculate_distance_alignment gps l1, calculate_distance_alignment gps l2 with
      | some a1, some a2 =>
          let aligned_data := align_by_distance a1 a2
          { success := true
            driver1 := some { name := strOr session1.driver_name "Driver 1"
                              lap_number := l1.lap_number
                              lap_time := l1.lap_time
                              is_fastest := l1.is_fastest }
            driver2 := some { name := strOr session2.driver_name "Driver 2"
                              lap_number := l2.lap_number
                              lap_time := l2.lap_time
                              is_fastest := l2.is_fastest }
            aligned_data := some aligned_data
            comparison_metrics := calculate_comparison_metrics aligned_data
            sector_analysis := some (calculate_sector_analysis aligned_data 3)
            alignment_info := some
              { total_distance := aligned_data.distance.getLast?.getD 0
                data_points := aligned_data.distance.length
                interpolation_spacing := 10 } }
      | _, _ =>
          { success := false
            error := some "Failed to calculate distance alignment for laps" }
  | _, _ =>
      { success := false
        error := some "Required laps not found in session data"
        lap1_available := some lap1.isSome
        lap2_available := some lap2.isSome }

/-- The `comparison_engine.py` lines 80-105: the `ComparisonResult` dataclass.
The three summary dictionaries and the timestamp are carried as inert
placeholders: `DataComparisonEngine.compare_sessions` provably never
constructs this value (claim C2), so their content is never observable. -/
structure ComparisonResult where
  driver1_name : Option String
  driver2_name : Option String
  lap1_number : Option ℤ
  lap2_number : Option ℤ
  total_time_delta : ℚ
  faster_driver : Option String
  total_distance : ℚ
  data_points : ℕ
  comparison_points : List ComparisonPoint
  sector_analysis : List SectorAnalysis
  speed_analysis : Unit := ()
  action_analysis : Unit := ()
  dynamics_analysis : Unit := ()
  processing_time : ℚ := 0

/-- The `comparison_engine.py` lines 483-496: `DataComparisonEngine._select_lap`:
exact match for an explicit lap number; otherwise the marked fastest lap
when requested and present; otherwise the first lap if any. -/
def select_lap (session : SessionData) (use_fastest : Bool)
    (specific_lap : Option ℤ) : Option LapData :=
  match specific_lap with
  | some n => session.laps.find? (fun lap => lap.lap_number == n)
  | none =>
      if use_fastest && session.fastest_lap.isSome then session.fastest_lap
      else session.laps.head?

/-- The `comparison_engine.py` lines 412-481: `DataComparisonEngine.compare_sessions`.
Exceptions escaping to the caller are modelled as `Except.error`:
* if either lap fails to resolve, the body raises
  `ValueError("Could not find valid laps for comparison")`, which the
  catch-all handler logs and RE-RAISES (`raise`, line 481);
* otherwise the body calls `self.alignment_engine.align_laps(lap1, lap2)`
  (line 428) — but `DataAlignmentEngine` (`data_alignment.py`) defines no
  method named `align_laps` (only `align_sessions`), so attribute lookup
  raises `AttributeError`, which the same catch-all re-raises.
No path returns a `ComparisonResult`. -/
def compare_sessions (session1 session2 : SessionData) (use_fastest_laps : Bool)
    (specific_lap1 specific_lap2 : Option ℤ) : Except String ComparisonResult :=
  match select_lap session1 use_fastest_laps specific_lap1,
        select_lap session2 use_fastest_laps specific_lap2 with
  | some _, some _ =>
      Except.error "AttributeError: DataAlignmentEngine has no attribute align_laps"
  | _, _ => Except.error "Could not find valid laps for comparison"

/-- A GPS distance function for examples whose points carry no GPS data
(the value is never used on such points). -/
def gpsZero : ℚ → ℚ → ℚ → ℚ → ℚ := fun _ _ _ _ => 0

/-- Session with no laps at all. -/
def emptySession : SessionData := {}

/-- Telemetry point with only time and speed set. -/
def tsPoint (t s : ℚ) : TelemetryDataPoint := { time := t, speed := some s }

/-- Lap whose second sample has a SMALLER timestamp than the first
(inconsistent time data), no GPS: the speed-integration fallback produces a
negative increment. -/
def lapBackwardsTime : LapData :=
  { lap_number := 1, start_time := 0, end_time := 1, lap_time := 1
    data_points := [tsPoint 1 36, tsPoint (1/2) 36] }

/-- Well-formed two-point lap (times increasing, positive speeds). -/
def lapForwardTime : LapData :=
  { lap_number := 1, start_time := 0, end_time := 1, lap_time := 1
    data_points := [tsPoint 0 36, tsPoint 1 36] }

/-- Session holding exactly `lapForwardTime`. -/
def sessionOneLap : SessionData := { laps := [lapForwardTime] }

/-- Lap with a single telemetry sample (its distance curve is `[0]`, so the
common distance of any pairing with it is `0`). -/
def lapSinglePoint : LapData :=
  { lap_number := 1, start_time := 0, end_time := 0, lap_time := 0
    data_points := [tsPoint 0 36] }

/-- Session holding exactly `lapSinglePoint`. -/
def sessionSinglePoint : SessionData := { laps := [lapSinglePoint] }

/-- Distance-aligned point with the given distance, gear and time (speed 36,
temperatures present so that interpolation is defined). -/
def dPoint (d : ℚ) (g : ℤ) (t : ℚ) : AlignedPoint :=
  { distance := d, time := t, speed := 36, throttle := 0, brake := 0, gear := g
    rpm := 0, gps_lat := none, gps_lon := none, water_temp := some 0, oil_temp := some 0 }

/-- Aligned lap with final distance 25 (not a multiple of the 10 m grid
spacing) and gears 1 then 2. -/
def lapDataTo25 : List AlignedPoint := [dPoint 0 1 0, dPoint 25 2 5]

/-- Aligned lap with final distance 40. -/
def lapDataTo40 : List AlignedPoint := [dPoint 0 1 0, dPoint 40 1 8]

/-- Aligned lap with final distance 30. -/
def lapDataTo30 : List AlignedPoint := [dPoint 0 1 0, dPoint 30 1 6]

/-- Channel map for the C3 counterexample: driver 1's time array is driver
2's minus a constant 2.0 s. -/
def driver1C3 : Channel → List ℚ := fun c =>
  match c with
  | Channel.time => [8, 18, 28]
  | _ => [0, 0, 0]

/-- Channel map for the C3 counterexample: driver 2. -/
def driver2C3 : Channel → List ℚ := fun c =>
  match c with
  | Channel.time => [10, 20, 30]
  | _ => [0, 0, 0]

/-- Channel map for the C10 witness: driver 1 time array `[5, 6, 4]`
(cumulative delta `[0, 1, -1]`, one sign change). -/
def driver1C10 : Channel → List ℚ := fun c =>
  match c with
  | Channel.time => [5, 6, 4]
  | _ => [0, 0, 0]

/-- Channel map for the C10 witness: driver 2 time array `[0, 0, 0]`. -/
def driver2C10 : Channel → List ℚ := fun _ => [0, 0, 0]

/-- Distance grid for the C3 and C10 examples. -/
def distC10 : List ℚ := [0, 10, 20]

/-- The delta-analyzer output on the C10 example. -/
def resultC10 : TimeComparison :=
  (calculate_lap_delta_detailed driver1C10 driver2C10 distC10).getD
    { time_delta_array := [], cumulative_delta_array := [], distance_array := []
      time_delta_start := 0, time_delta_end := 0, cumulative_delta_final := 0
      max_time_gap := 0, avg_time_delta := 0, zero_crossings := []
      max_advantages_driver1 := { time_gap := 0, distance := 0, index := 0 }
      max_advantages_driver2 := { time_gap := 0, distance := 0, index := 0 }
      sector_analysis := []
      statistics := { driver1_ahead_percentage := 0, driver2_ahead_percentage := 0
                      even_percentage := 0, delta_variance := 0 } }

/-- The zero crossing the analyzer reports on the C10 example. -/
def crossingC10 : ZeroCrossing := { distance := 15, index := 1 }

/-- Comparison point at the given distance with the given driver speeds
(all other channels zero / neutral). -/
def cPoint (d s1 s2 : ℚ) : ComparisonPoint :=
  { distance := d, time_delta := 0, speed_delta := 0, throttle_delta := 0
    brake_delta := 0, gear_delta := 0, rpm_delta := 0
    driver1_speed := s1, driver1_throttle := 0, driver1_brake := 0
    driver1_action := DriverAction.coasting, driver1_dynamics := VehicleDynamics.neutral
    driver2_speed := s2, driver2_throttle := 0, driver2_brake := 0
    driver2_action := DriverAction.coasting, driver2_dynamics := VehicleDynamics.neutral }

/-- Two comparison points at distances 10 m and 20 m, both drivers moving at
3.6 km/h (1 m/s). -/
def pointsC5 : List ComparisonPoint := [cPoint 10 (18/5) (18/5), cPoint 20 (18/5) (18/5)]

/-- Driver-channel map interpolated from `lapDataTo25` onto the grid
`[0, 10, 20]` (used to witness the gear-channel facts). -/
def fC8 : Channel → List ℚ :=
  (interpolate_lap_data lapDataTo25 [0, 10, 20]).getD (fun _ => [])

/-- Length of the `np.arange(0, stop, step)` grid. -/
lemma arange_length (stop step : ℚ) : (arange stop step).length = (⌈stop / step⌉).toNat := by
  unfold arange
  rw [List.length_map, List.length_range]

/-- The code's `sum(xs) if xs else 0` equals the plain sum. -/
lemma isEmpty_sum_if (l : List ℚ) : (if l.isEmpty then (0 : ℚ) else l.sum) = l.sum := by
  cases l <;> simp

/-- C9: `DriverActionClassifier.classify_action` with the constructor's
default thresholds implements exactly the ordered first-match-wins rules of
the specification (throttle ≥ 95 → FULL_THROTTLE; else brake ≥ 5 →
(throttle ≥ 15 ? TRAIL_BRAKING : BRAKING); else throttle ≤ 5 ∧ brake ≤ 5 →
COASTING; else PARTIAL_THROTTLE), and in particular the five quoted
examples hold. -/
theorem C9_classify_action_rules :
    (∀ t b : ℚ, defaultClassifier.classify_action t b = classifySpec t b) ∧
    defaultClassifier.classify_action 100 0 = DriverAction.full_throttle ∧
    defaultClassifier.classify_action 0 60 = DriverAction.braking ∧
    defaultClassifier.classify_action 20 10 = DriverAction.trail_braking ∧
    defaultClassifier.classify_action 2 2 = DriverAction.coasting ∧
    defaultClassifier.classify_action 50 0 = DriverAction.partial_throttle :=
  ⟨fun _ _ => rfl, by with_unfolding_all decide, by with_unfolding_all decide, by with_unfolding_all decide, by with_unfolding_all decide, by with_unfolding_all decide⟩

/-- C2: whenever both laps resolve, `DataComparisonEngine.compare_sessions`
raises (the `align_laps` attribute does not exist on
`DataAlignmentEngine`, and the catch-all handler re-raises); it never
returns a `ComparisonResult`. -/
theorem C2_compare_sessions_always_raises
    (s1 s2 : SessionData) (uf : Bool) (sp1 sp2 : Option ℤ) (l1 l2 : LapData)
    (h1 : select_lap s1 uf sp1 = some l1) (h2 : select_lap s2 uf sp2 = some l2) :
    compare_sessions s1 s2 uf sp1 sp2 =
      Except.error "AttributeError: DataAlignmentEngine has no attribute align_laps" ∧
    ∀ r : ComparisonResult, compare_sessions s1 s2 uf sp1 sp2 ≠ Except.ok r := by
  unfold compare_sessions
  rw [h1, h2]
  exact ⟨rfl, fun r h => by simp at h⟩

/-- Witness for C2 at a concrete session pair whose laps resolve. -/
theorem C2_witness :
    compare_sessions sessionOneLap sessionOneLap true none none =
      Except.error "AttributeError: DataAlignmentEngine has no attribute align_laps" :=
  (C2_compare_sessions_always_raises sessionOneLap sessionOneLap true none none
    lapForwardTime lapForwardTime (by with_unfolding_all decide) (by with_unfolding_all decide)).1

/-- C1 counterexample: on a session pair with no laps the comparison
orchestration (`DataComparisonEngine.compare_sessions`) does NOT return a
`success=false` result value — the `ValueError` escapes to the caller
(modelled as `Except.error`), refuting "no exception ever crosses the core
boundary to the caller" for `compare_sessions`. -/
theorem C1_counterexample :
    compare_sessions emptySession emptySession true none none =
      Except.error "Could not find valid laps for comparison" := rfl

/-- C1 (amended): `DataAlignmentEngine.align_sessions` returns every failure
as a result value: `success=false` always comes with an error description,
and a `success=true` result carries no error.  (The original claim fails
for `DataComparisonEngine.compare_sessions`, which re-raises; see
`C1_counterexample`.) -/
theorem C1_align_sessions_failures_are_values
    (gps : ℚ → ℚ → ℚ → ℚ → ℚ) (s1 s2 : SessionData) (uf : Bool) (sp1 sp2 : Option ℤ) :
    ((align_sessions gps s1 s2 uf sp1 sp2).success = false →
      (align_sessions gps s1 s2 uf sp1 sp2).error.isSome = true) ∧
    ((align_sessions gps s1 s2 uf sp1 sp2).success = true →
      (align_sessions gps s1 s2 uf sp1 sp2).error = none) := by
  unfold align_sessions
  cases alignSelectLap s1 uf sp1 with
  | none => simp
  | some l1 =>
      cases alignSelectLap s2 uf sp2 with
      | none => simp
      | some l2 =>
          rcases hC : calculate_distance_alignment gps l1 with _ | a1 <;>
            rcases hD : calculate_distance_alignment gps l2 with _ | a2 <;>
              simp [hC, hD]

/-- Witness for C1 at a concrete failing input (no laps to select). -/
theorem C1_witness :
    (align_sessions gpsZero emptySession emptySession true none none).error.isSome = true :=
  (C1_align_sessions_failures_are_values gpsZero emptySession emptySession true
    none none).1 (by with_unfolding_all decide)

/-- C7 counterexample: two laps with total distances 25 m and 40 m yield
grid arrays of length 3 (`np.arange(0, 25, 10)`), not
`floor(min(25, 40)/10) = 2`. -/
theorem C7_counterexample :
    (align_by_distance lapDataTo25 lapDataTo40).distance.length = 3 ∧
    ⌊min (lastDistance lapDataTo25) (lastDistance lapDataTo40) / 10⌋ = 2 ∧
    (3 : ℕ) ≠ 2 := ⟨by with_unfolding_all decide, by with_unfolding_all decide, by with_unfolding_all decide⟩

/-- C7 (amended): each of the Track Aligner's output arrays (the grid and,
when a driver's channel map is produced, every channel array) has length
`⌈min(total_distance1, total_distance2) / 10⌉` (ceiling, not floor; `0`
when the common distance is non-positive). -/
theorem C7_aligned_array_lengths (lap1_data lap2_data : List AlignedPoint) :
    (align_by_distance lap1_data lap2_data).distance.length =
      (⌈min (lastDistance lap1_data) (lastDistance lap2_data) / 10⌉).toNat ∧
    (∀ f, (align_by_distance lap1_data lap2_data).driver1 = some f →
      ∀ c, (f c).length = (align_by_distance lap1_data lap2_data).distance.length) ∧
    (∀ f, (align_by_distance lap1_data lap2_data).driver2 = some f →
      ∀ c, (f c).length = (align_by_distance lap1_data lap2_data).distance.length) := by
  refine ⟨?_, ?_, ?_⟩
  · simp [align_by_distance, arange_length, distance_spacing]
  all_goals
    intro f hf c
    simp only [align_by_distance, interpolate_lap_data] at hf ⊢
    split at hf
    · exact absurd hf (by simp)
    · cases Option.some.injEq .. ▸ hf
      split <;> simp

/-- Witness for C7 on a concrete lap pair (grid part and gear channel of
driver 1). -/
theorem C7_witness :
    (align_by_distance lapDataTo25 lapDataTo40).distance.length =
      (⌈min (lastDistance lapDataTo25) (lastDistance lapDataTo40) / 10⌉).toNat ∧
    (((align_by_distance lapDataTo25 lapDataTo40).driver1.getD (fun _ => []))
        Channel.gear).length =
      (align_by_distance lapDataTo25 lapDataTo40).distance.length :=
  ⟨(C7_aligned_array_lengths lapDataTo25 lapDataTo40).1,
   (C7_aligned_array_lengths lapDataTo25 lapDataTo40).2.1
     ((align_by_distance lapDataTo25 lapDataTo40).driver1.getD (fun _ => [])) rfl
     Channel.gear⟩

/-- C5 counterexample: two in-sector points at cumulative distances 10 m and
20 m, both drivers at 3.6 km/h (1 m/s).  The code sums
`p.distance / (speed/3.6)` with the CUMULATIVE distance (10/1 + 20/1 = 30 s);
the claim's per-point distance SPAN to the adjacent grid point (10 m each)
would give 10/1 + 10/1 = 20 s. -/
theorem C5_counterexample :
    (analyze_sector 1 0 30 pointsC5 pointsC5 "Driver 1" "Driver 2").driver1_sector_time = 30 ∧
    sectorTimeSpecDriver1 pointsC5 = 20 ∧ ((30 : ℚ) ≠ 20) := by
  refine ⟨?_, ?_, ?_⟩ <;> with_unfolding_all decide

/-- C5 (amended): the per-driver sector time computed by
`TrackSectorAnalyzer.analyze_sector` is the sum over in-sector points with
strictly positive speed of the point's CUMULATIVE distance times 3.6
divided by the driver's speed (i.e. cumulative distance over speed in m/s,
not a per-point span), and the dominant driver is driver 1 exactly when its
sector time is strictly smaller (ties go to driver 2). -/
theorem C5_sector_time_and_dominance
    (sector_num : ℕ) (start_dist end_dist : ℚ) (pts1 pts2 : List ComparisonPoint)
    (n1 n2 : String)
    (hne : pts1.filter (fun p => start_dist ≤ p.distance ∧ p.distance ≤ end_dist) ≠ []) :
    (analyze_sector sector_num start_dist end_dist pts1 pts2 n1 n2).driver1_sector_time =
      (((pts1.filter (fun p => start_dist ≤ p.distance ∧ p.distance ≤ end_dist)).filter
          (fun p => 0 < p.driver1_speed)).map
        (fun p => p.distance * (18/5) / p.driver1_speed)).sum ∧
    (analyze_sector sector_num start_dist end_dist pts1 pts2 n1 n2).driver2_sector_time =
      (((pts1.filter (fun p => start_dist ≤ p.distance ∧ p.distance ≤ end_dist)).filter
          (fun p => 0 < p.driver2_speed)).map
        (fun p => p.distance * (18/5) / p.driver2_speed)).sum ∧
    (analyze_sector sector_num start_dist end_dist pts1 pts2 n1 n2).dominant_driver =
      (if (analyze_sector sector_num start_dist end_dist pts1 pts2 n1 n2).driver1_sector_time <
          (analyze_sector sector_num start_dist end_dist pts1 pts2 n1 n2).driver2_sector_time
       then n1 else n2) := by
  unfold analyze_sector
  rcases hfil : pts1.filter (fun p => start_dist ≤ p.distance ∧ p.distance ≤ end_dist)
    with _ | ⟨p0, rest⟩
  · exact absurd hfil hne
  · simp only [hfil, isEmpty_sum_if]
    refine ⟨?_, ?_, ?_⟩
    · congr 1
      apply List.map_congr_left
      intro p _
      rw [div_div_eq_mul_div]
    · congr 1
      apply List.map_congr_left
      intro p _
      rw [div_div_eq_mul_div]
    · simp only [sub_neg]

/-- Witness for C5 at a concrete sector: dominance at the concrete input via
the amended theorem. -/
theorem C5_witness :
    (analyze_sector 1 0 30 pointsC5 pointsC5 "Driver 1" "Driver 2").dominant_driver =
      (if (analyze_sector 1 0 30 pointsC5 pointsC5 "Driver 1" "Driver 2").driver1_sector_time <
          (analyze_sector 1 0 30 pointsC5 pointsC5 "Driver 1" "Driver 2").driver2_sector_time
       then "Driver 1" else "Driver 2") :=
  (C5_sector_time_and_dominance 1 0 30 pointsC5 pointsC5 "Driver 1" "Driver 2"
    (by with_unfolding_all decide)).2.2

/-- A defaulted optional speed is non-negative when every present speed is. -/
lemma numOr_speed_nonneg (o : Option ℚ) (h : ∀ s, o = some s → 0 ≤ s) :
    0 ≤ numOr o 0 := by
  cases o with
  | none => simp [numOr]
  | some v =>
      have hv := h v rfl
      by_cases h0 : v = 0 <;> simp [numOr, h0, hv]

/-- The per-step increment is non-negative when the GPS distance is
non-negative, time does not decrease, and present speeds are non-negative. -/
lemma pointIncrement_nonneg (gps : ℚ → ℚ → ℚ → ℚ → ℚ)
    (hg : ∀ a b c d, 0 ≤ gps a b c d) (prev cur : TelemetryDataPoint)
    (ht : prev.time ≤ cur.time)
    (hs1 : 0 ≤ numOr prev.speed 0) (hs2 : 0 ≤ numOr cur.speed 0) :
    0 ≤ pointIncrement gps prev cur := by
  unfold pointIncrement
  split
  · exact hg _ _ _ _
  · have hsum : 0 ≤ (numOr cur.speed 0 + numOr prev.speed 0) / 2 * 1000 / 3600 := by
      have := add_nonneg hs2 hs1
      positivity
    exact mul_nonneg hsum (by linarith)

/-- Accumulated distances of `alignRest` form a non-decreasing chain from
the running cumulative value, under the hypotheses of
`pointIncrement_nonneg`. -/
lemma alignRest_distances_chain (gps : ℚ → ℚ → ℚ → ℚ → ℚ)
    (hg : ∀ a b c d, 0 ≤ gps a b c d) :
    ∀ (rest : List TelemetryDataPoint) (prev : TelemetryDataPoint) (cum : ℚ),
      List.Chain' (fun p q : TelemetryDataPoint => p.time ≤ q.time) (prev :: rest) →
      (∀ p ∈ prev :: rest, ∀ s, p.speed = some s → 0 ≤ s) →
      List.Chain' (· ≤ ·) (cum :: distancesOf (alignRest gps prev cum rest))
  | [], _, _, _, _ => by simp [alignRest, distancesOf]
  | cur :: rest, prev, cum, hchain, hsp => by
      have hhead : prev.time ≤ cur.time := (List.chain'_cons.mp hchain).1
      have hinc : 0 ≤ pointIncrement gps prev cur :=
        pointIncrement_nonneg gps hg prev cur hhead
          (numOr_speed_nonneg _ (hsp prev (by simp)))
          (numOr_speed_nonneg _ (hsp cur (by simp)))
      have hrec := alignRest_distances_chain gps hg rest cur (cum + pointIncrement gps prev cur)
        (List.chain'_cons.mp hchain).2
        (fun p hp => hsp p (List.mem_cons_of_mem _ hp))
      rw [alignRest]
      simp only [distancesOf, List.map_cons, mkAlignedPoint]
      rw [List.chain'_cons]
      exact ⟨le_add_of_nonneg_right hinc, hrec⟩

/-- C4 counterexample: a two-point lap whose second sample is 0.5 s EARLIER
than the first (inconsistent time data, no GPS) at constant 36 km/h yields
the distance array `[0, -5]` — the code applies no clamp and the cumulative
distance decreases. -/
theorem C4_counterexample :
    (calculate_distance_alignment gpsZero lapBackwardsTime).map distancesOf = some [0, -5] ∧
    ¬ List.Chain' (· ≤ ·) [(0 : ℚ), -5] := by
  refine ⟨by with_unfolding_all decide, fun h => absurd (List.chain'_cons.mp h).1 (by norm_num)⟩

/-- C4 (amended): the Distance Estimator's output starts at 0, and it is
non-decreasing PROVIDED the lap's timestamps are non-decreasing and all
present speeds are non-negative (GPS increments are non-negative since the
Haversine value `2·R·asin(√a)` is; `asin(√a) ≥ 0` because `√a ≥ 0`).  The
code contains no clamp, so without these hypotheses the distance can
decrease (see `C4_counterexample`). -/
theorem C4_distance_nondecreasing (gps : ℚ → ℚ → ℚ → ℚ → ℚ) (lap : LapData)
    (hg : ∀ a b c d, 0 ≤ gps a b c d)
    (ht : List.Chain' (fun p q : TelemetryDataPoint => p.time ≤ q.time) lap.data_points)
    (hs : ∀ p ∈ lap.data_points, ∀ s, p.speed = some s → 0 ≤ s)
    (res : List AlignedPoint)
    (hres : calculate_distance_alignment gps lap = some res) :
    (distancesOf res).head? = some 0 ∧ List.Chain' (· ≤ ·) (distancesOf res) := by
  unfold calculate_distance_alignment at hres
  rcases hpts : lap.data_points with _ | ⟨p0, rest⟩
  · rw [hpts] at hres; exact absurd hres (by simp)
  · rw [hpts] at hres ht hs
    have hres' : mkAlignedPoint 0 p0 :: alignRest gps p0 0 rest = res :=
      Option.some.inj hres
    have hchain := alignRest_distances_chain gps hg rest p0 0 ht hs
    rw [← hres']
    simp only [distancesOf, List.map_cons, mkAlignedPoint]
    exact ⟨rfl, hchain⟩

/-- Witness for C4 at a concrete well-formed lap. -/
theorem C4_witness :
    (distancesOf ((calculate_distance_alignment gpsZero lapForwardTime).getD [])).head? =
      some 0 ∧
    List.Chain' (· ≤ ·)
      (distancesOf ((calculate_distance_alignment gpsZero lapForwardTime).getD [])) :=
  C4_distance_nondecreasing gpsZero lapForwardTime (fun _ _ _ _ => le_refl 0)
    (by refine List.chain'_cons.mpr ⟨?_, List.chain'_singleton _⟩
        with_unfolding_all decide)
    (by with_unfolding_all decide) _ (by with_unfolding_all decide)

/-- Subtracting a list from its own shift-by-2 gives a constant array. -/
lemma map_sub_two_zipWith (l : List ℚ) :
    (l.map (fun x => x - 2)).zipWith (· - ·) l = List.replicate l.length (-2) := by
  induction l with
  | nil => rfl
  | cons a l ih =>
      simp only [List.map_cons, List.zipWith_cons_cons, List.length_cons,
        List.replicate_succ, ih]
      congr 1
      ring

/-- Indexing (with default 0) into an all-zero list gives 0. -/
lemma getD_all_zero (l : List ℚ) (h : ∀ x ∈ l, x = 0) (i : ℕ) : l.getD i 0 = 0 := by
  induction l generalizing i with
  | nil => simp
  | cons a l ih =>
      cases i with
      | zero => simpa using h a (by simp)
      | succ j => simpa using ih (fun x hx => h x (by simp [hx])) j

/-- The zero-crossing scan reports nothing on an all-zero cumulative array
(the sign-change conditions require a strictly signed left endpoint). -/
lemma zero_crossings_from_all_zero (l : List ℚ) :
    ∀ (i : ℕ) (d : List ℚ), (∀ x ∈ l, x = 0) → zero_crossings_from i l d = [] := by
  induction l with
  | nil =>
      intro i d _
      rcases d with _ | ⟨d1, _ | ⟨d2, ds⟩⟩ <;> rw [zero_crossings_from.eq_def]
  | cons a l ih =>
      intro i d hz
      cases l with
      | nil =>
          rcases d with _ | ⟨d1, _ | ⟨d2, ds⟩⟩ <;> rw [zero_crossings_from.eq_def]
      | cons b l2 =>
          rcases d with _ | ⟨d1, _ | ⟨d2, ds⟩⟩
          · rw [zero_crossings_from.eq_def]
          · rw [zero_crossings_from.eq_def]
          · have ha : a = 0 := hz a (by simp)
            have hb : b = 0 := hz b (by simp)
            rw [zero_crossings_from.eq_def]
            have hcond : ¬ ((0 < a ∧ b ≤ 0) ∨ (a < 0 ∧ 0 ≤ b)) := by
              rw [ha, hb]; simp
            simp only [if_neg hcond, List.nil_append]
            exact ih (i + 1) (d2 :: ds) (fun x hx => hz x (by simp [hx]))

set_option maxHeartbeats 2000000 in
/-- C3 counterexample: with `time1 = time2 - 2.0` pointwise
(`time2 = [10,20,30]`, grid `[0,10,20]`), the analyzer's
`cumulative_delta_array` is `[0,0,0]` — constant 0, not ±2.0 — and both
max-advantage time gaps are 0, not 2.0 (`zero_crossings` is indeed empty,
see the amended theorem). -/
theorem C3_counterexample :
    (calculate_lap_delta_detailed driver1C3 driver2C3 distC10).map
        (fun r => r.cumulative_delta_array) = some [0, 0, 0] ∧
    (calculate_lap_delta_detailed driver1C3 driver2C3 distC10).map
        (fun r => r.max_advantages_driver1.time_gap) = some 0 ∧
    (calculate_lap_delta_detailed driver1C3 driver2C3 distC10).map
        (fun r => r.max_advantages_driver2.time_gap) = some 0 ∧
    ((0 : ℚ) ≠ 2) ∧ ((0 : ℚ) ≠ -2) := by
  refine ⟨?_, ?_, ?_, ?_, ?_⟩ <;> with_unfolding_all decide

set_option maxHeartbeats 2000000 in
/-- C3 (amended): if driver 1's aligned time array equals driver 2's minus a
constant 2.0 s at every grid point, the delta analyzer reports
`time_delta_array` constant at −2.0, `cumulative_delta_array` constant at 0
(the normalization subtracts `time_delta[0]`), an empty `zero_crossings`
list, and both max-advantage entries report a time gap of 0. -/
theorem C3_constant_offset_zero_delta (time2 distances : List ℚ)
    (driver1 driver2 : Channel → List ℚ)
    (h1 : driver1 Channel.time = time2.map (fun x => x - 2))
    (h2 : driver2 Channel.time = time2)
    (hlen : time2.length = distances.length) (hne : time2 ≠ []) :
    ∃ r, calculate_lap_delta_detailed driver1 driver2 distances = some r ∧
      r.time_delta_array = List.replicate time2.length (-2) ∧
      r.cumulative_delta_array = List.replicate time2.length 0 ∧
      r.zero_crossings = [] ∧
      r.max_advantages_driver1.time_gap = 0 ∧
      r.max_advantages_driver2.time_gap = 0 := by
  have hcum : (List.replicate time2.length (-2 : ℚ)).map
      (fun x => x - (List.replicate time2.length (-2 : ℚ)).headD 0) =
      List.replicate time2.length 0 := by
    rcases time2 with _ | ⟨t, ts⟩
    · rfl
    · simp only [List.length_cons, List.replicate_succ, List.headD_cons, List.map_cons,
        List.map_replicate]
      norm_num
  simp only [calculate_lap_delta_detailed, h1, h2, map_sub_two_zipWith, hcum]
  rw [if_pos]
  · refine ⟨_, rfl, rfl, rfl, ?_, ?_, ?_⟩
    · exact zero_crossings_from_all_zero _ 0 distances
        (fun x hx => List.eq_of_mem_replicate hx)
    · exact getD_all_zero _ (fun x hx => List.eq_of_mem_replicate hx) _
    · have h0 := getD_all_zero (List.replicate time2.length (0 : ℚ))
        (fun x hx => List.eq_of_mem_replicate hx)
        (argminIdx (List.replicate time2.length (0 : ℚ)))
      rw [h0, abs_zero]
  · refine ⟨by simp, by simpa using hlen, by simpa using hne⟩

/-- Witness for C3 at the concrete arrays of `C3_counterexample`. -/
theorem C3_witness :
    ∃ r, calculate_lap_delta_detailed driver1C3 driver2C3 distC10 = some r ∧
      r.time_delta_array = List.replicate ([(10 : ℚ), 20, 30]).length (-2) ∧
      r.cumulative_delta_array = List.replicate ([(10 : ℚ), 20, 30]).length 0 ∧
      r.zero_crossings = [] ∧
      r.max_advantages_driver1.time_gap = 0 ∧
      r.max_advantages_driver2.time_gap = 0 :=
  C3_constant_offset_zero_delta [10, 20, 30] distC10 driver1C3 driver2C3
    (by with_unfolding_all decide) (by with_unfolding_all decide)
    (by with_unfolding_all decide) (by with_unfolding_all decide)

/-- The `np.arange` grid is empty when the stop value is non-positive. -/
lemma arange_eq_nil_of_nonpos (stop step : ℚ) (hstop : stop ≤ 0) (hstep : 0 < step) :
    arange stop step = [] := by
  have hd : stop / step ≤ 0 := div_nonpos_of_nonpos_of_nonneg hstop (le_of_lt hstep)
  have hc : ⌈stop / step⌉ ≤ 0 := by
    rw [show (0 : ℤ) = ((0 : ℤ)) from rfl]
    exact Int.ceil_le.mpr (by exact_mod_cast hd)
  unfold arange
  rw [Int.toNat_of_nonpos hc]
  rfl

/-- C6 counterexample: a pair of single-sample laps (common distance 0) does
NOT make alignment fail — `align_sessions` returns `success=true` with no
error and an empty aligned distance grid. -/
theorem C6_counterexample :
    (align_sessions gpsZero sessionSinglePoint sessionSinglePoint false none none).success
      = true ∧
    (align_sessions gpsZero sessionSinglePoint sessionSinglePoint false none none).error
      = none ∧
    ((align_sessions gpsZero sessionSinglePoint sessionSinglePoint false none
        none).aligned_data.map AlignedData.distance) = some [] := by
  refine ⟨?_, ?_, ?_⟩ <;> with_unfolding_all decide

/-- C6 (amended): with both laps resolved, an EMPTY input sequence makes
`align_sessions` fail with the structured error value
("Failed to calculate distance alignment for laps", with nothing else), but a
non-positive common distance with non-empty sequences does NOT fail: the
result has `success=true` and the aligned arrays are merely empty. -/
theorem C6_alignment_failure_cases (gps : ℚ → ℚ → ℚ → ℚ → ℚ)
    (s1 s2 : SessionData) (uf : Bool) (sp1 sp2 : Option ℤ) (l1 l2 : LapData)
    (h1 : alignSelectLap s1 uf sp1 = some l1)
    (h2 : alignSelectLap s2 uf sp2 = some l2) :
    (l1.data_points = [] ∨ l2.data_points = [] →
      (align_sessions gps s1 s2 uf sp1 sp2).success = false ∧
      (align_sessions gps s1 s2 uf sp1 sp2).error =
        some "Failed to calculate distance alignment for laps") ∧
    (∀ a1 a2, calculate_distance_alignment gps l1 = some a1 →
      calculate_distance_alignment gps l2 = some a2 →
      min (lastDistance a1) (lastDistance a2) ≤ 0 →
      (align_sessions gps s1 s2 uf sp1 sp2).success = true ∧
      (align_sessions gps s1 s2 uf sp1 sp2).aligned_data =
        some (align_by_distance a1 a2) ∧
      (align_by_distance a1 a2).distance = []) := by
  constructor
  · intro hemp
    have hnone : calculate_distance_alignment gps l1 = none ∨
        calculate_distance_alignment gps l2 = none := by
      rcases hemp with h | h
      · exact Or.inl (by rw [calculate_distance_alignment, h])
      · exact Or.inr (by rw [calculate_distance_alignment, h])
    simp only [align_sessions, h1, h2]
    rcases hnone with h | h
    · rw [h]
      rcases calculate_distance_alignment gps l2 with _ | a2 <;> exact ⟨by trivial, by trivial⟩
    · rw [h]
      rcases calculate_distance_alignment gps l1 with _ | a1 <;> exact ⟨by trivial, by trivial⟩
  · intro a1 a2 ha1 ha2 hmin
    simp only [align_sessions, h1, h2, ha1, ha2]
    refine ⟨by trivial, by trivial, ?_⟩
    show arange (min (lastDistance a1) (lastDistance a2)) distance_spacing = []
    exact arange_eq_nil_of_nonpos _ _ hmin (by norm_num [distance_spacing])

/-- Witness for C6: the non-failure branch at the concrete single-sample
sessions. -/
theorem C6_witness :
    (align_sessions gpsZero sessionSinglePoint sessionSinglePoint false none none).success
        = true ∧
    (align_sessions gpsZero sessionSinglePoint sessionSinglePoint false none
        none).aligned_data =
      some (align_by_distance ((calculate_distance_alignment gpsZero lapSinglePoint).getD [])
        ((calculate_distance_alignment gpsZero lapSinglePoint).getD [])) ∧
    (align_by_distance ((calculate_distance_alignment gpsZero lapSinglePoint).getD [])
        ((calculate_distance_alignment gpsZero lapSinglePoint).getD [])).distance = [] :=
  (C6_alignment_failure_cases gpsZero sessionSinglePoint sessionSinglePoint false none none
      lapSinglePoint lapSinglePoint (by with_unfolding_all decide)
      (by with_unfolding_all decide)).2
    ((calculate_distance_alignment gpsZero lapSinglePoint).getD [])
    ((calculate_distance_alignment gpsZero lapSinglePoint).getD [])
    (by with_unfolding_all decide) (by with_unfolding_all decide)
    (by with_unfolding_all decide)

/-- A linear interpolant between two values that are both at least 1 stays
at least 1 on the segment. -/
lemma one_le_segInterp (x1 y1 x2 y2 t : ℚ) (hx : x1 < x2) (ht1 : x1 ≤ t)
    (ht2 : t ≤ x2) (hy1 : 1 ≤ y1) (hy2 : 1 ≤ y2) :
    1 ≤ segInterp x1 y1 x2 y2 t := by
  unfold segInterp
  rw [mul_div_assoc]
  set w := (t - x1) / (x2 - x1) with hw
  have hw0 : 0 ≤ w := div_nonneg (by linarith) (by linarith)
  have hw1 : w ≤ 1 := (div_le_one (by linarith)).mpr (by linarith)
  nlinarith [mul_nonneg (by linarith : (0 : ℚ) ≤ y1 - 1) (by linarith : (0 : ℚ) ≤ 1 - w),
    mul_nonneg (by linarith : (0 : ℚ) ≤ y2 - 1) hw0]

/-- The `interpSorted` stays at least 1 on a strictly x-sorted point list whose
values are all at least 1, for arguments inside the list's x-range. -/
lemma one_le_interpSorted :
    ∀ (ps : List (ℚ × ℚ)) (t : ℚ),
      List.Chain' (fun p q : ℚ × ℚ => p.1 < q.1) ps →
      (∀ p ∈ ps, 1 ≤ p.2) →
      ps ≠ [] →
      (ps.head?.getD (0, 0)).1 ≤ t →
      t ≤ (ps.getLast?.getD (0, 0)).1 →
      1 ≤ interpSorted t ps
  | [], _, _, _, hne, _, _ => absurd rfl hne
  | [(x1, y1)], _, _, hy, _, _, _ => by
      rw [interpSorted]
      exact hy (x1, y1) (by simp)
  | [(x1, y1), (x2, y2)], t, hs, hy, _, hlo, hhi => by
      rw [interpSorted]
      exact one_le_segInterp x1 y1 x2 y2 t (List.chain'_cons.mp hs).1 (by simpa using hlo)
        (by simpa using hhi) (hy (x1, y1) (by simp)) (hy (x2, y2) (by simp))
  | (x1, y1) :: (x2, y2) :: p3 :: rest, t, hs, hy, _, hlo, hhi => by
      rw [interpSorted]
      split
      · exact one_le_segInterp x1 y1 x2 y2 t (List.chain'_cons.mp hs).1 (by simpa using hlo)
          (by assumption) (hy (x1, y1) (by simp)) (hy (x2, y2) (by simp))
      · have hx2t : (((x2, y2) :: p3 :: rest).head?.getD (0, 0)).1 ≤ t := by
          simp only [List.head?_cons, Option.getD_some]
          linarith [not_le.mp (by assumption : ¬ t ≤ x2)]
        exact one_le_interpSorted ((x2, y2) :: p3 :: rest) t (List.chain'_cons.mp hs).2
          (fun p hp => hy p (List.mem_cons_of_mem _ hp)) (by simp) hx2t
          (by rw [← List.getLast?_cons_cons (b := (x2, y2))]; exact hhi)

/-- C8 counterexample: a lap with gears 1 and 2 at distances 0 m and 25 m,
aligned against a 30 m lap, emits the gear array `[1, 7/5, 9/5]`: the
floor/clamp happens BEFORE interpolation and the emitted values are not
integers. -/
theorem C8_counterexample :
    ((align_by_distance lapDataTo25 lapDataTo30).driver1.map (fun f => f Channel.gear)) =
      some [1, 7/5, 9/5] ∧
    ((7 : ℚ) / 5).den ≠ 1 := by
  constructor <;> with_unfolding_all decide

/-- C8 (amended): the gear channel is floored to an integer and clamped to a
minimum of 1 BEFORE interpolation (`max(1, int(gear))` on the samples); the
emitted values are linear interpolations of those clamped integers, hence at
least 1 for grid points inside the lap's distance range (but not integers in
general, see `C8_counterexample`). -/
theorem C8_gear_clamped_before_interpolation
    (lapData : List AlignedPoint) (targets : List ℚ) (f : Channel → List ℚ)
    (hf : interpolate_lap_data lapData targets = some f)
    (hlen : 1 < lapData.length)
    (hsorted : List.Chain' (· < ·) (lapData.map (·.distance)))
    (hdom : ∀ t ∈ targets,
      (lapData.map (·.distance)).head?.getD 0 ≤ t ∧
      t ≤ (lapData.map (·.distance)).getLast?.getD 0) :
    ∀ v ∈ f Channel.gear, 1 ≤ v := by
  intro v hv
  unfold interpolate_lap_data at hf
  split at hf
  · exact absurd hf (by simp)
  · have hfun := Option.some.inj hf
    rw [← hfun] at hv
    rcases List.mem_map.mp hv with ⟨t, ht, hvt⟩
    set ps := channelPoints lapData Channel.gear with hps
    have hchain : List.Chain' (fun p q : ℚ × ℚ => p.1 < q.1) ps := by
      rw [hps, channelPoints]
      rw [List.chain'_map]
      have := (List.chain'_map (fun p : AlignedPoint => p.distance)).mp hsorted
      exact this
    have hsortedps : ps.Sorted (fun p q : ℚ × ℚ => p.1 ≤ q.1) := by
      haveI : IsTrans (ℚ × ℚ) (fun p q : ℚ × ℚ => p.1 < q.1) :=
        ⟨fun _ _ _ h1 h2 => lt_trans h1 h2⟩
      exact (List.chain'_iff_pairwise.mp hchain).imp le_of_lt
    have hsort : sortPairs ps = ps := List.Sorted.insertionSort_eq hsortedps
    rw [← hvt, hsort]
    have hne : ps ≠ [] := by
      rw [hps, channelPoints]
      intro hcon
      rw [List.map_eq_nil_iff] at hcon
      rw [hcon] at hlen
      exact absurd hlen (by simp)
    have hy : ∀ p ∈ ps, 1 ≤ p.2 := by
      intro p hp
      rw [hps, channelPoints] at hp
      rcases List.mem_map.mp hp with ⟨q, _, hq⟩
      rw [← hq]
      show (1 : ℚ) ≤ ((max 1 q.gear : ℤ) : ℚ)
      exact_mod_cast le_max_left 1 q.gear
    have hhead : (ps.head?.getD (0, 0)).1 = (lapData.map (·.distance)).head?.getD 0 := by
      rw [hps, channelPoints, List.head?_map, List.head?_map]
      cases lapData.head? <;> rfl
    have hlast : (ps.getLast?.getD (0, 0)).1 = (lapData.map (·.distance)).getLast?.getD 0 := by
      rw [hps, channelPoints, List.getLast?_map, List.getLast?_map]
      cases lapData.getLast? <;> rfl
    exact one_le_interpSorted ps t hchain hy hne (hhead ▸ (hdom t ht).1)
      (hlast ▸ (hdom t ht).2)

/-- Witness for C8: the concrete emitted gear value 7/5 is at least 1. -/
theorem C8_witness :
    ((7 : ℚ) / 5) ∈ fC8 Channel.gear ∧ (1 : ℚ) ≤ 7/5 := by
  constructor
  · with_unfolding_all decide
  · refine C8_gear_clamped_before_interpolation lapDataTo25 [0, 10, 20] fC8 rfl
      (by with_unfolding_all decide) ?_ (by with_unfolding_all decide) (7/5) ?_
    · have hm : lapDataTo25.map (·.distance) = [0, 25] := by with_unfolding_all decide
      rw [hm]
      exact List.chain'_cons.mpr ⟨by norm_num, List.chain'_singleton _⟩
    · with_unfolding_all decide

/-- The head of a non-decreasing chain is at most its last element. -/
lemma le_getLast_of_chain' :
    ∀ (x : ℚ) (l : List ℚ), List.Chain' (· ≤ ·) (x :: l) →
      x ≤ (x :: l).getLast?.getD 0
  | _, [], _ => by simp
  | x, y :: l, h => by
      have h1 := (List.chain'_cons.mp h).1
      have h2 := le_getLast_of_chain' y l (List.chain'_cons.mp h).2
      rw [List.getLast?_cons_cons]
      linarith

/-- Every crossing reported by the zero-crossing scan records an actual sign
change of the cumulative array over an adjacent index pair, has a positive
interpolation denominator, satisfies the interpolation formula, and lies
between 0 and the last grid distance (for a sorted non-negative grid). -/
lemma zero_crossings_from_spec (cum : List ℚ) :
    ∀ (k : ℕ) (dist : List ℚ),
      List.Chain' (· ≤ ·) dist →
      (∀ d ∈ dist, 0 ≤ d) →
      ∀ zc ∈ zero_crossings_from k cum dist,
        ∃ j,
          zc.index = k + j ∧
          ((0 < cum.getD j 0 ∧ cum.getD (j + 1) 0 ≤ 0) ∨
           (cum.getD j 0 < 0 ∧ 0 ≤ cum.getD (j + 1) 0)) ∧
          |cum.getD j 0| + |cum.getD (j + 1) 0| ≠ 0 ∧
          zc.distance = dist.getD j 0 +
            (dist.getD (j + 1) 0 - dist.getD j 0) * |cum.getD j 0| /
              (|cum.getD j 0| + |cum.getD (j + 1) 0|) ∧
          0 ≤ zc.distance ∧ zc.distance ≤ dist.getLast?.getD 0 := by
  induction cum with
  | nil =>
      intro k dist _ _ zc hzc
      rcases dist with _ | ⟨d1, _ | ⟨d2, ds⟩⟩ <;>
        (rw [zero_crossings_from.eq_def] at hzc; simp at hzc)
  | cons a cum ih =>
      intro k dist hchain hnn zc hzc
      cases cum with
      | nil =>
          rcases dist with _ | ⟨d1, _ | ⟨d2, ds⟩⟩ <;>
            (rw [zero_crossings_from.eq_def] at hzc; simp at hzc)
      | cons b cs =>
          rcases dist with _ | ⟨d1, _ | ⟨d2, ds⟩⟩
          · rw [zero_crossings_from.eq_def] at hzc; simp at hzc
          · rw [zero_crossings_from.eq_def] at hzc; simp at hzc
          · rw [zero_crossings_from.eq_def] at hzc
            rcases List.mem_append.mp hzc with hin | hin
            · split at hin
              · have hzc' : zc = ZeroCrossing.mk (d1 + (d2 - d1) * |a| / (|a| + |b|)) k :=
                  List.mem_singleton.mp hin
                have hcond : (0 < a ∧ b ≤ 0) ∨ (a < 0 ∧ 0 ≤ b) := by assumption
                have hd12 : d1 ≤ d2 := (List.chain'_cons.mp hchain).1
                have hd1 : (0 : ℚ) ≤ d1 := hnn d1 (by simp)
                have habs : 0 < |a| := by
                  rcases hcond with ⟨h, _⟩ | ⟨h, _⟩
                  · exact abs_pos.mpr (ne_of_gt h)
                  · exact abs_pos.mpr (ne_of_lt h)
                have hden : 0 < |a| + |b| := add_pos_of_pos_of_nonneg habs (abs_nonneg b)
                have hw0 : 0 ≤ |a| / (|a| + |b|) := div_nonneg (abs_nonneg a) (le_of_lt hden)
                have hw1 : |a| / (|a| + |b|) ≤ 1 :=
                  (div_le_one hden).mpr (le_add_of_nonneg_right (abs_nonneg b))
                refine ⟨0, by simp [hzc'], by simpa using hcond,
                  by simpa using ne_of_gt hden, by simp [hzc'], ?_, ?_⟩
                · rw [hzc']
                  show (0 : ℚ) ≤ d1 + (d2 - d1) * |a| / (|a| + |b|)
                  rw [mul_div_assoc]
                  exact add_nonneg hd1 (mul_nonneg (by linarith) hw0)
                · rw [hzc']
                  show d1 + (d2 - d1) * |a| / (|a| + |b|) ≤
                    (d1 :: d2 :: ds).getLast?.getD 0
                  rw [List.getLast?_cons_cons]
                  have hlast := le_getLast_of_chain' d2 ds (List.chain'_cons.mp hchain).2
                  rw [mul_div_assoc]
                  nlinarith [mul_le_of_le_one_right (by linarith : (0:ℚ) ≤ d2 - d1) hw1]
              · simp at hin
            · obtain ⟨j, hidx, hcond, hden, hform, hlo, hhi⟩ :=
                ih (k + 1) (d2 :: ds) (List.chain'_cons.mp hchain).2
                  (fun d hd => hnn d (List.mem_cons_of_mem _ hd)) zc hin
              refine ⟨j + 1, by omega, by simpa using hcond, by simpa using hden,
                by simpa using hform, hlo, ?_⟩
              rw [List.getLast?_cons_cons]
              exact hhi

/-- C10: every zero crossing reported by the delta analyzer lies within
`[0, total_distance]`, corresponds to an actual sign change of
`cumulative_delta` between the adjacent grid points `index` and `index+1`,
its distance equals the magnitude-weighted interpolation formula, and the
interpolation denominator is nonzero whenever a crossing is reported
(hypotheses: the grid is non-decreasing and non-negative, as the aligner's
`np.arange` grid always is). -/
theorem C10_zero_crossings_sound (driver1 driver2 : Channel → List ℚ)
    (distances : List ℚ) (r : TimeComparison)
    (hr : calculate_lap_delta_detailed driver1 driver2 distances = some r)
    (hsorted : List.Chain' (· ≤ ·) distances)
    (hnn : ∀ d ∈ distances, 0 ≤ d) :
    ∀ zc ∈ r.zero_crossings,
      (0 ≤ zc.distance ∧ zc.distance ≤ distances.getLast?.getD 0) ∧
      ((0 < r.cumulative_delta_array.getD zc.index 0 ∧
        r.cumulative_delta_array.getD (zc.index + 1) 0 ≤ 0) ∨
       (r.cumulative_delta_array.getD zc.index 0 < 0 ∧
        0 ≤ r.cumulative_delta_array.getD (zc.index + 1) 0)) ∧
      (|r.cumulative_delta_array.getD zc.index 0| +
        |r.cumulative_delta_array.getD (zc.index + 1) 0| ≠ 0) ∧
      zc.distance = distances.getD zc.index 0 +
        (distances.getD (zc.index + 1) 0 - distances.getD zc.index 0) *
          |r.cumulative_delta_array.getD zc.index 0| /
          (|r.cumulative_delta_array.getD zc.index 0| +
           |r.cumulative_delta_array.getD (zc.index + 1) 0|) := by
  intro zc hzc
  simp only [calculate_lap_delta_detailed] at hr
  split at hr
  · have hrec := Option.some.inj hr
    rw [← hrec] at hzc ⊢
    obtain ⟨j, hidx, hcond, hden, hform, hlo, hhi⟩ :=
      zero_crossings_from_spec _ 0 distances hsorted hnn zc hzc
    have hj : j = zc.index := by omega
    rw [hj] at hcond hden hform
    exact ⟨⟨hlo, hhi⟩, hcond, hden, hform⟩
  · exact absurd hr (by simp)

/-- Witness for C10: the single crossing reported on the concrete example
(`cumulative_delta = [0, 1, -1]`, crossing at 15 m with index 1). -/
theorem C10_witness :
    (0 ≤ crossingC10.distance ∧ crossingC10.distance ≤ distC10.getLast?.getD 0) ∧
    ((0 < resultC10.cumulative_delta_array.getD crossingC10.index 0 ∧
      resultC10.cumulative_delta_array.getD (crossingC10.index + 1) 0 ≤ 0) ∨
     (resultC10.cumulative_delta_array.getD crossingC10.index 0 < 0 ∧
      0 ≤ resultC10.cumulative_delta_array.getD (crossingC10.index + 1) 0)) ∧
    (|resultC10.cumulative_delta_array.getD crossingC10.index 0| +
      |resultC10.cumulative_delta_array.getD (crossingC10.index + 1) 0| ≠ 0) ∧
    crossingC10.distance = distC10.getD crossingC10.index 0 +
      (distC10.getD (crossingC10.index + 1) 0 - distC10.getD crossingC10.index 0) *
        |resultC10.cumulative_delta_array.getD crossingC10.index 0| /
        (|resultC10.cumulative_delta_array.getD crossingC10.index 0| +
         |resultC10.cumulative_delta_array.getD (crossingC10.index + 1) 0|) :=
  C10_zero_crossings_sound driver1C10 driver2C10 distC10 resultC10
    (by with_unfolding_all decide)
    (by show List.Chain' (· ≤ ·) [(0 : ℚ), 10, 20]
        exact List.chain'_cons.mpr ⟨by norm_num,
          List.chain'_cons.mpr ⟨by norm_num, List.chain'_singleton _⟩⟩)
    (by with_unfolding_all decide) crossingC10 (by with_unfolding_all decide)
